import Mathlib

/-!
finance-buddy — verification of the financial-projection engine claims.

Shallow embedding of the retirement / mortgage simulation code of the
finance-buddy repository. Numeric values are modelled over `ℚ` (exact
arithmetic); the front-end code under `src/routes` is translated directly,
and the back-end engine components that only exist behind the HTTP API are
modelled from the specification (each such definition is marked
`Modelled from the spec:` in its doc comment).
-/

namespace FinanceBuddy

/-! ## Shared dashboard helpers (`lib/utils/calculations.ts`) -/

/-- Result record of `calculateChange`: absolute change and percentage change. -/
structure ChangeResult where
  value : ℚ
  percent : ℚ
deriving DecidableEq

/-- Function `calculateChange(current, previous)` from `calculations.ts`:
`value = current - previous`; `percent = (value / previous) * 100` when
`previous ≠ 0`, else `0`. -/
def calculateChange (current previous : ℚ) : ChangeResult :=
  { value := current - previous
    percent := if previous ≠ 0 then (current - previous) / previous * 100 else 0 }

/-- Function `calculateGoalProgress(current, target)` from `calculations.ts`:
`(current / target) * 100` when `target ≠ 0`, else `0`. -/
def calculateGoalProgress (current target : ℚ) : ℚ :=
  if target ≠ 0 then current / target * 100 else 0

/-! ## Settings page (`settings/+page.svelte`) and the 4%-rule aggregator -/

/-- Value `requiredCapital` from the settings page: 25× annual retirement salary
(4% safe-withdrawal rule). -/
def requiredCapital (retirementMonthlySalary : ℚ) : ℚ :=
  retirementMonthlySalary * 12 * 25

/-- Modelled from the spec: the Projection Aggregator's 4%-rule estimate
`estimated_monthly_income = total_final_balance * 0.04 / 12` (the aggregator
itself lives in the back-end engine, which is not part of the front-end
sources). -/
def estimatedMonthlyIncome (totalFinalBalance : ℚ) : ℚ :=
  totalFinalBalance * (4 / 100) / 12

/-! ## Mortgage page winner banner (`simulations/mortgage/+page.svelte`) -/

/-- Function `winnerLabel(strategy)` from the mortgage page: the invest banner text
iff the strategy string is `inwestycja`, otherwise the overpay banner text. -/
def winnerLabel (strategy : String) : String :=
  if strategy = "inwestycja" then "📈 Inwestycja wygrywa" else "🏠 Nadpłata wygrywa"

/-- Modelled from the spec: the Mortgage-vs-Invest Comparator's winner
selection (back-end) — the scenario with the greater final net position wins,
and the tie on exact equality goes to scenario A (debt reduction,
`nadpłata`). -/
def winningStrategy (netA netB : ℚ) : String :=
  if netA < netB then "inwestycja" else "nadpłata"

/-! ## Mortgage Amortizer (modelled from the spec, §4.6) -/

/-- The monthly interest rate corresponding to an annual percentage rate. -/
def monthlyRate (annualRatePct : ℚ) : ℚ := annualRatePct / 100 / 12

/-- Modelled from the spec: the Mortgage Amortizer's
`schedule(principal, annualRate, remainingMonths) -> monthlyPayment`
(the amortizer lives in the back-end engine) — the standard fixed-payment
formula `P * r(1+r)^n / ((1+r)^n - 1)` with `r` the monthly rate,
degenerating to `P / n` when `r = 0`. -/
def schedule (principal annualRatePct : ℚ) (months : Nat) : ℚ :=
  if monthlyRate annualRatePct = 0 then principal / months
  else principal * monthlyRate annualRatePct * (1 + monthlyRate annualRatePct) ^ months /
    ((1 + monthlyRate annualRatePct) ^ months - 1)

/-- Modelled from the spec: simulating the schedule forward — each month the
balance accrues one month's interest and the fixed payment is subtracted. -/
def balanceAfter (principal r payment : ℚ) : Nat → ℚ
  | 0 => principal
  | k + 1 => balanceAfter principal r payment k * (1 + r) - payment

/-- Closed form of the forward simulation for a nonzero monthly rate. -/
theorem balanceAfter_closed (p r m : ℚ) (hr : r ≠ 0) (k : Nat) :
    balanceAfter p r m k = p * (1 + r) ^ k - m * (((1 + r) ^ k - 1) / r) := by
  induction k with
  | zero => simp [balanceAfter]
  | succ k ih =>
    rw [balanceAfter, ih, pow_succ]
    field_simp
    ring

/-- Modelled from the spec: the Mortgage-vs-Invest Comparator rejects the
request before any projection runs when the monthly budget is below the
regular required payment; otherwise it returns the forward schedule. -/
def compareMortgageVsInvest (principal ratePct budget : ℚ) (months : Nat) :
    Except String (List ℚ) :=
  if budget < schedule principal ratePct months then
    Except.error "total_monthly_budget below the regular monthly payment"
  else
    Except.ok ((List.range (months + 1)).map
      (fun k => balanceAfter principal (monthlyRate ratePct) budget k))

/-! ## Mortgage-vs-invest client (`simulations/mortgage/+page.svelte`) -/

/-- One row of `yearly_projections` in the mortgage-vs-invest response, with
the fields declared by the page's `MortgageVsInvestYearlyRow` interface. -/
structure MortgageVsInvestYearlyRow where
  year : Nat
  annual_rate : ℚ
  scenario_a_mortgage_balance : ℚ
  scenario_a_real_mortgage_balance : ℚ
  scenario_a_cumulative_interest : ℚ
  scenario_a_investment_balance : ℚ
  scenario_a_after_tax_portfolio : ℚ
  scenario_a_real_portfolio : ℚ
  scenario_a_paid_off : Bool
  scenario_b_mortgage_balance : ℚ
  scenario_b_real_mortgage_balance : ℚ
  scenario_b_investment_balance : ℚ
  scenario_b_after_tax_portfolio : ℚ
  scenario_b_real_portfolio : ℚ
  scenario_b_cumulative_interest : ℚ
  net_advantage_invest : ℚ
deriving Inhabited

/-- The summary block of the mortgage-vs-invest response
(`MortgageVsInvestSummary` interface of the page). -/
structure MortgageVsInvestSummary where
  regular_monthly_payment : ℚ
  total_interest_a : ℚ
  total_interest_b : ℚ
  interest_saved : ℚ
  final_investment_portfolio : ℚ
  belka_tax_a : ℚ
  belka_tax_b : ℚ
  final_portfolio_a_real : ℚ
  final_portfolio_b_real : ℚ
  months_saved : ℚ
  winning_strategy : String
  net_advantage : ℚ
deriving Inhabited

/-- The whole mortgage-vs-invest response
(`MortgageVsInvestResponse` interface of the page). -/
structure MortgageVsInvestResponse where
  yearly_projections : List MortgageVsInvestYearlyRow
  summary : MortgageVsInvestSummary
deriving Inhabited

/-- The observable part of the `fetch` response in the page's
`runSimulation`: the ok flag, the status text, the structured `detail`
field of the error body (none when the body fails to parse or has no
detail), and the parsed success body. -/
structure FetchResponse where
  ok : Bool
  statusText : String
  detailField : Option String
  body : MortgageVsInvestResponse
deriving Inhabited

/-- Client state after one `runSimulation()` call on the mortgage page. -/
structure MortgageClientState where
  results : Option MortgageVsInvestResponse
  error : String
  loading : Bool

/-- Function `runSimulation()` of the mortgage page: `results` is reset to `null`
up front; a non-ok response throws `detail.detail ?? statusText`, which the
catch block displays, leaving `results` as `null`; an ok response stores the
body. -/
def runMortgageSimulation (resp : FetchResponse) : MortgageClientState :=
  if resp.ok then
    { results := some resp.body, error := "", loading := false }
  else
    { results := none, error := resp.detailField.getD resp.statusText, loading := false }

/-- The page's `{#if results}` guard: yearly projection rows are rendered
only when `results` is non-null. -/
def renderedProjectionRows (s : MortgageClientState) : List MortgageVsInvestYearlyRow :=
  match s.results with
  | none => []
  | some r => r.yearly_projections

/-! ## Retirement simulation page (`routes/+page.svelte`) -/

/-- The PPK monthly-salary subsidy threshold constant
`SALARY_THRESHOLD_2026 = 5767` from the retirement page. -/
def SALARY_THRESHOLD_2026 : ℚ := 5767

/-- Record `PpkConfig` from the retirement page: per-persona PPK account form state. -/
structure PpkConfig where
  enabled : Bool
  owner : String
  balance : ℚ
  salary : ℚ
  employeeRate : ℚ
  employerRate : ℚ
  belowThreshold : Bool
  includeSubsidies : Bool
deriving DecidableEq

/-- One step of the pre-flight PPK validation loop in `runSimulation`:
skip disabled accounts, then check the salary threshold, the employee rate
range 0.5–4% and the employer rate range 1.5–4%, in that order, returning
the first violation's error message. -/
def validatePpk (p : PpkConfig) : Option String :=
  if !p.enabled then none
  else if p.salary > SALARY_THRESHOLD_2026 ∧ p.belowThreshold then
    some ("PPK " ++ p.owner ++ ": Wynagrodzenie przekracza próg (5767 PLN)")
  else if p.employeeRate < 1/2 ∨ p.employeeRate > 4 then
    some ("PPK " ++ p.owner ++ ": Składka pracownika musi być w zakresie 0.5-4%")
  else if p.employerRate < 3/2 ∨ p.employerRate > 4 then
    some ("PPK " ++ p.owner ++ ": Składka pracodawcy musi być w zakresie 1.5-4%")
  else none

/-- The whole validation loop `for (const ppk of ppkAccounts)`: the first
error (in account order) aborts the run. -/
def validatePpkAccounts : List PpkConfig → Option String
  | [] => none
  | p :: ps =>
    match validatePpk p with
    | some e => some e
    | none => validatePpkAccounts ps

/-- One entry of the `ppk_accounts` field of the request body built by
`runSimulation`. -/
structure PpkRequestEntry where
  owner : String
  enabled : Bool
  starting_balance : ℚ
  monthly_gross_salary : ℚ
  employee_rate : ℚ
  employer_rate : ℚ
  salary_below_threshold : Bool
  include_welcome_bonus : Bool
  include_annual_subsidy : Bool
deriving DecidableEq

/-- The per-account mapping inside `requestBody.ppk_accounts`. -/
def toPpkRequestEntry (p : PpkConfig) : PpkRequestEntry :=
  { owner := p.owner
    enabled := true
    starting_balance := p.balance
    monthly_gross_salary := p.salary
    employee_rate := p.employeeRate
    employer_rate := p.employerRate
    salary_below_threshold := p.belowThreshold
    include_welcome_bonus := p.includeSubsidies
    include_annual_subsidy := p.includeSubsidies }

/-- Field `requestBody.ppk_accounts`: only enabled PPK accounts are sent, via
`ppkAccounts.filter((p) => p.enabled).map(...)`. -/
def buildPpkPayload (l : List PpkConfig) : List PpkRequestEntry :=
  (l.filter (fun p => p.enabled)).map toPpkRequestEntry

/-- Observable outcome of one `runSimulation()` call on the retirement page:
whether the API was reached, the PPK payload that was sent, the displayed
error string, and whether a results value was assigned. -/
structure RetirementRunOutcome where
  apiCalled : Bool
  sentPpkPayload : List PpkRequestEntry
  error : String
  resultsProduced : Bool

/-- Function `runSimulation()` of the retirement page, restricted to its observable
control flow: validation failure returns early (no fetch, `results` stays
`null`, the first violation is the displayed error); otherwise the filtered
PPK payload is posted and results are produced iff the response is ok. -/
def runRetirementSimulation (ppks : List PpkConfig) (respOk : Bool) :
    RetirementRunOutcome :=
  match validatePpkAccounts ppks with
  | some e =>
    { apiCalled := false, sentPpkPayload := [], error := e, resultsProduced := false }
  | none =>
    { apiCalled := true
      sentPpkPayload := buildPpkPayload ppks
      error := if respOk then "" else "Simulation failed"
      resultsProduced := respOk }

/-! ## PPK contribution arithmetic -/

/-- The contribution estimate displayed on the PPK account card:
`salary * (employeeRate + employerRate) / 100` per month. -/
def ppkMonthlyContributionEstimate (p : PpkConfig) : ℚ :=
  p.salary * (p.employeeRate + p.employerRate) / 100

/-- Modelled from the spec: the PPK Subsidy Engine's monthly gross salary in
year `y`, grown geometrically at the salary-growth rate (the engine lives in
the back-end). -/
def ppkSalaryForYear (monthlySalary growthPct : ℚ) (y : Nat) : ℚ :=
  monthlySalary * (1 + growthPct / 100) ^ y

/-- Modelled from the spec: the PPK Subsidy Engine's monthly contribution in
year `y` — that year's salary times the combined employee+employer rate. -/
def ppkMonthlyContribution (monthlySalary growthPct empRate emprRate : ℚ) (y : Nat) : ℚ :=
  ppkSalaryForYear monthlySalary growthPct y * (empRate + emprRate) / 100

/-- Modelled from the spec: annual PPK contribution = monthly × 12. -/
def ppkAnnualContribution (monthlySalary growthPct empRate emprRate : ℚ) (y : Nat) : ℚ :=
  12 * ppkMonthlyContribution monthlySalary growthPct empRate emprRate y

/-- The PPK welcome-bonus amount (the page's subsidy checkbox label:
`250 PLN + 240 PLN/rok`). -/
def PPK_WELCOME_BONUS : ℚ := 250

/-- The PPK annual government-subsidy amount (same source). -/
def PPK_ANNUAL_SUBSIDY : ℚ := 240

/-! ## Wrapper Growth Simulator (modelled from the spec, §4.1–4.4) -/

/-- The account wrapper kinds of the engine's data model. -/
inductive WrapperKind where
  | IKE
  | IKZE
  | PPK
  | Brokerage
deriving DecidableEq

/-- Modelled from the spec: the engine-side `AccountConfig` record — wrapper
kind, owner, starting balance, contribution strategy (auto-fill flag or fixed
monthly amount), IKZE marginal tax rate, the wrapper's base annual limit, and
the PPK salary/rate/flag fields. -/
structure AccountConfig where
  kind : WrapperKind
  owner : String
  startingBalance : ℚ
  autoFillLimit : Bool
  monthlyContribution : ℚ
  taxRate : ℚ
  baseLimit : ℚ
  salary : ℚ
  employeeRate : ℚ
  employerRate : ℚ
  belowThreshold : Bool
  includeWelcomeBonus : Bool
  includeAnnualSubsidy : Bool
  enabled : Bool

/-- Modelled from the spec: the macro `Assumptions` record. -/
structure Assumptions where
  currentAge : Nat
  retirementAge : Nat
  annualReturnRate : ℚ
  limitGrowthRate : ℚ
  salaryGrowthRate : ℚ
  inflationRate : ℚ

/-- Modelled from the spec: the Limit Schedule —
`base_limit * (1 + growth_rate)^years_from_base` (minor-unit rounding is
left unspecified by the source and omitted here). -/
def limitSchedule (base growthPct : ℚ) (y : Nat) : ℚ :=
  base * (1 + growthPct / 100) ^ y

/-- Modelled from the spec: the Contribution Planner for IKE/IKZE — zero
when the remaining capacity is non-positive, the full remaining capacity in
auto-fill mode, and `min(monthly*12, capacity)` in fixed-monthly mode. -/
def plannedContribution (cfg : AccountConfig) (limit : ℚ) : ℚ :=
  if limit ≤ 0 then 0
  else if cfg.autoFillLimit then limit
  else min (cfg.monthlyContribution * 12) limit

/-- Modelled from the spec: the year's contribution per wrapper kind — PPK
is salary-rate-driven and not limit-capped, brokerage is plain
`monthly * 12`, IKE/IKZE go through the planner. -/
def contributionFor (cfg : AccountConfig) (ass : Assumptions) (y : Nat) : ℚ :=
  match cfg.kind with
  | WrapperKind.PPK =>
    ppkAnnualContribution cfg.salary ass.salaryGrowthRate cfg.employeeRate cfg.employerRate y
  | WrapperKind.Brokerage => cfg.monthlyContribution * 12
  | _ => plannedContribution cfg (limitSchedule cfg.baseLimit ass.limitGrowthRate y)

/-- Modelled from the spec: the PPK subsidies of year `y` — the welcome
bonus only in year 0 when its flag is set, and the annual subsidy when its
flag is set and the below-threshold condition holds. -/
def subsidyFor (cfg : AccountConfig) (y : Nat) : ℚ :=
  (if cfg.kind = WrapperKind.PPK ∧ cfg.includeWelcomeBonus = true ∧ y = 0 then
    PPK_WELCOME_BONUS else 0) +
  (if cfg.kind = WrapperKind.PPK ∧ cfg.includeAnnualSubsidy = true ∧
      cfg.belowThreshold = true then PPK_ANNUAL_SUBSIDY else 0)

/-- One row of the engine's per-year output (`YearlyProjection`). -/
structure YearlyProjection where
  year : Nat
  age : Nat
  annual_contribution : ℚ
  balance_end_of_year : ℚ
  cumulative_contributions : ℚ
  cumulative_returns : ℚ
  tax_savings : ℚ
  government_subsidies : ℚ

/-- Modelled from the spec: the Wrapper Growth Simulator's year loop —
each year the contribution (and any PPK subsidy) is added, the nominal
return is applied to the whole balance afterwards, and cumulative totals
are threaded forward. `rem` counts the remaining years. -/
def simRowsAux (cfg : AccountConfig) (ass : Assumptions) :
    Nat → Nat → ℚ → ℚ → ℚ → List YearlyProjection
  | _, 0, _, _, _ => []
  | y, rem + 1, balance, cumC, cumR =>
    let c := contributionFor cfg ass y
    let s := subsidyFor cfg y
    let newBalance := (balance + c + s) * (1 + ass.annualReturnRate / 100)
    let gained := newBalance - (balance + c + s)
    { year := y + 1
      age := ass.currentAge + y + 1
      annual_contribution := c
      balance_end_of_year := newBalance
      cumulative_contributions := cumC + c
      cumulative_returns := cumR + gained
      tax_savings := if cfg.kind = WrapperKind.IKZE then c * cfg.taxRate / 100 else 0
      government_subsidies := s } ::
    simRowsAux cfg ass (y + 1) rem newBalance (cumC + c) (cumR + gained)

/-- The engine's per-account result record (`AccountSimulation`). -/
structure AccountSimulation where
  account_name : String
  starting_balance : ℚ
  total_contributions : ℚ
  total_returns : ℚ
  final_balance : ℚ
  yearly_projections : List YearlyProjection

/-- Display name of a wrapper kind. -/
def wrapperName : WrapperKind → String
  | WrapperKind.IKE => "IKE"
  | WrapperKind.IKZE => "IKZE"
  | WrapperKind.PPK => "PPK"
  | WrapperKind.Brokerage => "Rachunek maklerski"

/-- Modelled from the spec: `simulate(AccountConfig, Assumptions) ->
AccountSimulation` — one row per year from now to retirement, with the
totals read off the final year's cumulative figures. -/
def simulateAccount (cfg : AccountConfig) (ass : Assumptions) : AccountSimulation :=
  let rows := simRowsAux cfg ass 0 (ass.retirementAge - ass.currentAge) cfg.startingBalance 0 0
  { account_name := wrapperName cfg.kind ++ " (" ++ cfg.owner ++ ")"
    starting_balance := cfg.startingBalance
    total_contributions := (rows.map (fun r => r.cumulative_contributions)).getLastD 0
    total_returns := (rows.map (fun r => r.cumulative_returns)).getLastD 0
    final_balance := (rows.map (fun r => r.balance_end_of_year)).getLastD cfg.startingBalance
    yearly_projections := rows }

end FinanceBuddy

namespace FinanceBuddy

/-! ## Theorems for the simple claims -/

/-- C10: the shared percentage helpers are total with guarded division:
`calculateChange` returns `percent = 0` whenever `previous = 0` and the
ordinary ratio formula otherwise, and `calculateGoalProgress` returns `0`
whenever `target = 0` and the ratio formula otherwise. -/
theorem calculateChange_goalProgress_guarded (current previous target : ℚ) :
    (calculateChange current 0).percent = 0 ∧
    (calculateChange current previous).percent =
      (if previous = 0 then 0 else (current - previous) / previous * 100) ∧
    calculateGoalProgress current 0 = 0 ∧
    calculateGoalProgress current target =
      (if target = 0 then 0 else current / target * 100) := by
  refine ⟨by simp [calculateChange], ?_, by simp [calculateGoalProgress], ?_⟩
  · by_cases h : previous = 0 <;> simp [calculateChange, h]
  · by_cases h : target = 0 <;> simp [calculateGoalProgress, h]

/-- C6: the settings page's `requiredCapital` and the aggregator's 4%-rule
income estimate are mutually inverse: applying the 4%-rule to a final balance
of `requiredCapital s` returns exactly the retirement monthly salary `s`. -/
theorem estimatedMonthlyIncome_requiredCapital (s : ℚ) :
    estimatedMonthlyIncome (requiredCapital s) = s := by
  unfold estimatedMonthlyIncome requiredCapital
  ring

/-- C5: exactly one strategy is declared the winner — the banner shows the
invest label iff `winning_strategy = "inwestycja"` and otherwise the overpay
label; the two labels are distinct; the winner computation declares the
invest strategy iff scenario B's net position strictly exceeds scenario A's,
so the tie on exact equality goes to scenario A (`nadpłata`). -/
theorem winnerLabel_exclusive (netA netB : ℚ) (s : String) :
    (winnerLabel s = "📈 Inwestycja wygrywa" ↔ s = "inwestycja") ∧
    (winnerLabel s = "📈 Inwestycja wygrywa" ∨ winnerLabel s = "🏠 Nadpłata wygrywa") ∧
    ¬(winnerLabel s = "📈 Inwestycja wygrywa" ∧ winnerLabel s = "🏠 Nadpłata wygrywa") ∧
    winningStrategy netA netA = "nadpłata" ∧
    (winnerLabel (winningStrategy netA netB) = "📈 Inwestycja wygrywa" ↔ netA < netB) := by
  have hne : ("📈 Inwestycja wygrywa" : String) ≠ "🏠 Nadpłata wygrywa" := by decide
  have hne2 : ("nadpłata" : String) ≠ "inwestycja" := by decide
  refine ⟨?_, ?_, ?_, ?_, ?_⟩
  · by_cases h : s = "inwestycja" <;> simp [winnerLabel, h, hne.symm]
  · by_cases h : s = "inwestycja" <;> simp [winnerLabel, h]
  · rintro ⟨h1, h2⟩
    exact hne (h1.symm.trans h2)
  · simp [winningStrategy]
  · by_cases h : netA < netB <;> simp [winningStrategy, winnerLabel, h, hne2]

/-! ## Validation lemmas for the retirement page -/

theorem validatePpk_isSome_of_rate_violation (p : PpkConfig) (hen : p.enabled = true)
    (h : p.employeeRate < 1/2 ∨ 4 < p.employeeRate ∨
      p.employerRate < 3/2 ∨ 4 < p.employerRate) :
    (validatePpk p).isSome = true := by
  unfold validatePpk
  rw [hen]
  simp only [Bool.not_true, Bool.false_eq_true, if_false]
  split_ifs with h1 h2 h3
  · rfl
  · rfl
  · rfl
  · push_neg at h2 h3
    rcases h with h | h | h | h
    · exact absurd h (not_lt.mpr h2.1)
    · exact absurd h (not_lt.mpr h2.2)
    · exact absurd h (not_lt.mpr h3.1)
    · exact absurd h (not_lt.mpr h3.2)

theorem validatePpk_isSome_of_threshold (p : PpkConfig) (hen : p.enabled = true)
    (hsal : SALARY_THRESHOLD_2026 < p.salary) (hbt : p.belowThreshold = true) :
    (validatePpk p).isSome = true := by
  unfold validatePpk
  rw [hen]
  simp [hsal, hbt]

theorem validatePpkAccounts_isSome_of_mem {p : PpkConfig} {l : List PpkConfig}
    (hmem : p ∈ l) (hp : (validatePpk p).isSome = true) :
    (validatePpkAccounts l).isSome = true := by
  induction l with
  | nil => cases hmem
  | cons q ts ih =>
    rcases List.mem_cons.mp hmem with rfl | hmem2
    · cases hq : validatePpk p with
      | some e => simp [validatePpkAccounts, hq]
      | none => rw [hq] at hp; cases hp
    · cases hq : validatePpk q with
      | some e => simp [validatePpkAccounts, hq]
      | none => simpa [validatePpkAccounts, hq] using ih hmem2

/-- C1: an enabled PPK account with an employee rate outside [0.5, 4]% or an
employer rate outside [1.5, 4]% makes `runSimulation` reject the request
before any simulation step: no API call, no results, and the displayed error
is exactly the first violated constraint found by the validation scan. -/
theorem ppk_rate_violation_rejected (ppks : List PpkConfig) (respOk : Bool)
    (h : ∃ p ∈ ppks, p.enabled = true ∧
      (p.employeeRate < 1/2 ∨ 4 < p.employeeRate ∨
        p.employerRate < 3/2 ∨ 4 < p.employerRate)) :
    (runRetirementSimulation ppks respOk).apiCalled = false ∧
    (runRetirementSimulation ppks respOk).resultsProduced = false ∧
    some (runRetirementSimulation ppks respOk).error = validatePpkAccounts ppks := by
  obtain ⟨p, hmem, hen, hrates⟩ := h
  have hsome := validatePpkAccounts_isSome_of_mem hmem
    (validatePpk_isSome_of_rate_violation p hen hrates)
  obtain ⟨e, he⟩ := Option.isSome_iff_exists.mp hsome
  unfold runRetirementSimulation
  rw [he]
  exact ⟨rfl, rfl, rfl⟩

/-- Concrete input for the C1 witness: enabled PPK account with employee
rate 5% (outside 0.5-4%). -/
def badRatePpk : PpkConfig :=
  { enabled := true, owner := "Marcin", balance := 0, salary := 5000,
    employeeRate := 5, employerRate := 2, belowThreshold := false,
    includeSubsidies := true }

/-- Witness for C1: one enabled PPK account with employee rate 5% is
rejected up front. -/
theorem ppk_rate_violation_rejected_witness :
    (∃ p ∈ [badRatePpk], p.enabled = true ∧
      (p.employeeRate < 1/2 ∨ 4 < p.employeeRate ∨
        p.employerRate < 3/2 ∨ 4 < p.employerRate)) ∧
    ((runRetirementSimulation [badRatePpk] true).apiCalled = false ∧
      (runRetirementSimulation [badRatePpk] true).resultsProduced = false ∧
      some (runRetirementSimulation [badRatePpk] true).error =
        validatePpkAccounts [badRatePpk]) :=
  ⟨⟨badRatePpk, List.mem_singleton.mpr rfl, rfl, by norm_num [badRatePpk]⟩,
    ppk_rate_violation_rejected [badRatePpk] true
      ⟨badRatePpk, List.mem_singleton.mpr rfl, rfl, by norm_num [badRatePpk]⟩⟩

/-- C2: the threshold is the named constant 5767 PLN, and an enabled PPK
account whose salary exceeds it while the below-threshold flag is set makes
the whole request fail before the simulation starts. -/
theorem ppk_threshold_violation_rejected (ppks : List PpkConfig) (p : PpkConfig)
    (respOk : Bool) (hmem : p ∈ ppks) (hen : p.enabled = true)
    (hsal : SALARY_THRESHOLD_2026 < p.salary) (hbt : p.belowThreshold = true) :
    SALARY_THRESHOLD_2026 = 5767 ∧
    (runRetirementSimulation ppks respOk).apiCalled = false ∧
    (runRetirementSimulation ppks respOk).resultsProduced = false ∧
    some (runRetirementSimulation ppks respOk).error = validatePpkAccounts ppks := by
  have hsome := validatePpkAccounts_isSome_of_mem hmem
    (validatePpk_isSome_of_threshold p hen hsal hbt)
  obtain ⟨e, he⟩ := Option.isSome_iff_exists.mp hsome
  refine ⟨rfl, ?_⟩
  unfold runRetirementSimulation
  rw [he]
  exact ⟨rfl, rfl, rfl⟩

/-- Concrete input for the C2 witness: enabled PPK account with salary 6000
above the 5767 threshold and the below-threshold flag set. -/
def overThresholdPpk : PpkConfig :=
  { enabled := true, owner := "Ewa", balance := 0, salary := 6000,
    employeeRate := 2, employerRate := 2, belowThreshold := true,
    includeSubsidies := true }

/-- Witness for C2: a PPK account with salary 6000 > 5767 and the
below-threshold flag set is rejected. -/
theorem ppk_threshold_violation_rejected_witness :
    overThresholdPpk ∈ [overThresholdPpk] ∧
    overThresholdPpk.enabled = true ∧
    SALARY_THRESHOLD_2026 < overThresholdPpk.salary ∧
    overThresholdPpk.belowThreshold = true ∧
    (SALARY_THRESHOLD_2026 = 5767 ∧
      (runRetirementSimulation [overThresholdPpk] true).apiCalled = false ∧
      (runRetirementSimulation [overThresholdPpk] true).resultsProduced = false ∧
      some (runRetirementSimulation [overThresholdPpk] true).error =
        validatePpkAccounts [overThresholdPpk]) :=
  ⟨List.mem_singleton.mpr rfl, rfl, by norm_num [SALARY_THRESHOLD_2026, overThresholdPpk], rfl,
    ppk_threshold_violation_rejected [overThresholdPpk] overThresholdPpk true
      (List.mem_singleton.mpr rfl) rfl
      (by norm_num [SALARY_THRESHOLD_2026, overThresholdPpk]) rfl⟩

/-- C9: a disabled PPK account is exempt from the pre-flight validation —
it can never produce an error, removing it changes neither the validation
outcome nor the request payload — and every entry actually sent in
`ppk_accounts` is enabled. -/
theorem disabled_ppk_exempt_and_excluded (l1 l2 : List PpkConfig) (p : PpkConfig)
    (hdis : p.enabled = false) :
    validatePpk p = none ∧
    validatePpkAccounts (l1 ++ p :: l2) = validatePpkAccounts (l1 ++ l2) ∧
    buildPpkPayload (l1 ++ p :: l2) = buildPpkPayload (l1 ++ l2) ∧
    ∀ q ∈ buildPpkPayload (l1 ++ p :: l2), q.enabled = true := by
  have hv : validatePpk p = none := by simp [validatePpk, hdis]
  refine ⟨hv, ?_, ?_, ?_⟩
  · induction l1 with
    | nil => simp [validatePpkAccounts, hv]
    | cons q ts ih =>
      cases hq : validatePpk q with
      | some e => simp [validatePpkAccounts, hq]
      | none => simpa [validatePpkAccounts, hq] using ih
  · simp [buildPpkPayload, List.filter_append, hdis]
  · intro q hq
    simp only [buildPpkPayload, List.mem_map] at hq
    obtain ⟨x, _, rfl⟩ := hq
    rfl

/-- Concrete input for the C9 witness: a disabled PPK account with wildly
out-of-range rates and an over-threshold salary with the flag set. -/
def disabledBadPpk : PpkConfig :=
  { enabled := false, owner := "Ewa", balance := 0, salary := 99999,
    employeeRate := 99, employerRate := 0, belowThreshold := true,
    includeSubsidies := true }

/-- Witness for C9: the disabled account neither blocks validation nor
appears in the payload. -/
theorem disabled_ppk_exempt_and_excluded_witness :
    disabledBadPpk.enabled = false ∧
    (validatePpk disabledBadPpk = none ∧
      validatePpkAccounts ([] ++ disabledBadPpk :: []) = validatePpkAccounts ([] ++ []) ∧
      buildPpkPayload ([] ++ disabledBadPpk :: []) = buildPpkPayload ([] ++ []) ∧
      ∀ q ∈ buildPpkPayload ([] ++ disabledBadPpk :: []), q.enabled = true) :=
  ⟨rfl, disabled_ppk_exempt_and_excluded [] [] _ rfl⟩

/-! ## Mortgage amortizer and comparator theorems -/

/-- C8: for a positive rate the payment computed by `schedule` fully
amortizes the loan to exactly 0 at the final period, and at zero rate
`schedule` degenerates to `principal / months` for every principal and term
(in particular `schedule 100000 0 120 = 100000 / 120`). -/
theorem schedule_amortizes (p rate : ℚ) (n : Nat) (hn : 0 < n) (hr : 0 < rate) :
    balanceAfter p (monthlyRate rate) (schedule p rate n) n = 0 ∧
    ∀ (q : ℚ) (m : Nat), schedule q 0 m = q / m := by
  constructor
  · have hrm : 0 < monthlyRate rate := by
      unfold monthlyRate
      positivity
    have hrm0 : monthlyRate rate ≠ 0 := ne_of_gt hrm
    have hgt : 1 < (1 + monthlyRate rate) ^ n := one_lt_pow₀ (by linarith) hn.ne'
    have hne : (1 + monthlyRate rate) ^ n - 1 ≠ 0 := sub_ne_zero.mpr (ne_of_gt hgt)
    rw [balanceAfter_closed _ _ _ hrm0, schedule, if_neg hrm0]
    field_simp
    ring
  · intro q m
    norm_num [schedule, monthlyRate]

/-- Witness for C8: a 2-month loan of 100 at a monthly rate of 100% is paid
to exactly 0 by the computed payment, and zero-rate schedules divide evenly. -/
theorem schedule_amortizes_witness :
    0 < 2 ∧ (0 : ℚ) < 1200 ∧
    (balanceAfter 100 (monthlyRate 1200) (schedule 100 1200 2) 2 = 0 ∧
      ∀ (q : ℚ) (m : Nat), schedule q 0 m = q / m) :=
  ⟨by decide, by norm_num, schedule_amortizes 100 1200 2 (by decide) (by norm_num)⟩

/-- C4: a rejected mortgage-vs-invest request produces no partial output —
the comparator rejects a too-small budget before any projection, and on a
non-ok response the client's `results` stays `null`, the server's structured
detail message becomes the displayed error, and no projection rows render. -/
theorem mortgage_rejection_no_partial_output (resp : FetchResponse)
    (principal ratePct budget : ℚ) (months : Nat)
    (hok : resp.ok = false) (hb : budget < schedule principal ratePct months) :
    (∃ msg, compareMortgageVsInvest principal ratePct budget months = Except.error msg) ∧
    (runMortgageSimulation resp).results = none ∧
    (runMortgageSimulation resp).error = resp.detailField.getD resp.statusText ∧
    renderedProjectionRows (runMortgageSimulation resp) = [] := by
  have hrun : runMortgageSimulation resp =
      { results := none, error := resp.detailField.getD resp.statusText, loading := false } := by
    simp [runMortgageSimulation, hok]
  refine ⟨⟨"total_monthly_budget below the regular monthly payment", ?_⟩, ?_, ?_, ?_⟩
  · simp [compareMortgageVsInvest, hb]
  · rw [hrun]
  · rw [hrun]
  · rw [hrun]
    rfl

/-- Concrete non-ok response for the C4 witness, mirroring the page test's
mock (`ok: false`, `statusText: 'Bad Request'`, body `{detail: 'Budget too
low'}`). -/
def mortgageErrorResponse : FetchResponse :=
  { ok := false, statusText := "Bad Request", detailField := some "Budget too low",
    body := default }

/-- Witness for C4: with a zero budget against a positive regular payment
the comparator rejects, and the non-ok response leaves `results` null with
the detail message displayed and no rows rendered. -/
theorem mortgage_rejection_no_partial_output_witness :
    mortgageErrorResponse.ok = false ∧
    (0 : ℚ) < schedule 100 1200 2 ∧
    ((∃ msg, compareMortgageVsInvest 100 1200 0 2 = Except.error msg) ∧
      (runMortgageSimulation mortgageErrorResponse).results = none ∧
      (runMortgageSimulation mortgageErrorResponse).error =
        mortgageErrorResponse.detailField.getD mortgageErrorResponse.statusText ∧
      renderedProjectionRows (runMortgageSimulation mortgageErrorResponse) = []) :=
  ⟨rfl, by norm_num [schedule, monthlyRate],
    mortgage_rejection_no_partial_output mortgageErrorResponse 100 1200 0 2 rfl
      (by norm_num [schedule, monthlyRate])⟩

/-! ## PPK contribution theorem -/

/-- C3: the annual PPK contribution is 12 times the month's
salary-times-combined-rate contribution with the percentage rates divided
by 100; the salary grows by the factor `(1 + salary_growth/100)` from one
year to the next; and in year 0 the engine's monthly contribution agrees
with the estimate displayed on the page's PPK account card. -/
theorem ppk_contribution_formula (p : PpkConfig) (growthPct : ℚ) (y : Nat) :
    ppkAnnualContribution p.salary growthPct p.employeeRate p.employerRate y =
      12 * (ppkSalaryForYear p.salary growthPct y *
        (p.employeeRate + p.employerRate) / 100) ∧
    ppkSalaryForYear p.salary growthPct (y + 1) =
      ppkSalaryForYear p.salary growthPct y * (1 + growthPct / 100) ∧
    ppkMonthlyContribution p.salary growthPct p.employeeRate p.employerRate 0 =
      ppkMonthlyContributionEstimate p := by
  refine ⟨rfl, ?_, ?_⟩
  · unfold ppkSalaryForYear
    rw [pow_succ]
    ring
  · unfold ppkMonthlyContribution ppkSalaryForYear ppkMonthlyContributionEstimate
    ring

/-! ## Wrapper Growth Simulator theorems -/

theorem plannedContribution_nonneg (cfg : AccountConfig) (limit : ℚ)
    (hm : 0 ≤ cfg.monthlyContribution) : 0 ≤ plannedContribution cfg limit := by
  unfold plannedContribution
  split_ifs with h1 h2
  · exact le_refl 0
  · linarith
  · exact le_min (by positivity) (by linarith)

theorem contributionFor_nonneg (cfg : AccountConfig) (ass : Assumptions)
    (hm : 0 ≤ cfg.monthlyContribution) (hs : 0 ≤ cfg.salary)
    (he : 0 ≤ cfg.employeeRate) (hr : 0 ≤ cfg.employerRate)
    (hg : 0 ≤ ass.salaryGrowthRate) (y : Nat) :
    0 ≤ contributionFor cfg ass y := by
  unfold contributionFor
  cases hk : cfg.kind with
  | PPK =>
    unfold ppkAnnualContribution ppkMonthlyContribution ppkSalaryForYear
    have h1 : (0 : ℚ) ≤ 1 + ass.salaryGrowthRate / 100 := by
      have := div_nonneg hg (by norm_num : (0 : ℚ) ≤ 100)
      linarith
    apply mul_nonneg (by norm_num)
    apply div_nonneg _ (by norm_num)
    exact mul_nonneg (mul_nonneg hs (pow_nonneg h1 y)) (add_nonneg he hr)
  | Brokerage => positivity
  | IKE => exact plannedContribution_nonneg cfg _ hm
  | IKZE => exact plannedContribution_nonneg cfg _ hm

theorem simRowsAux_cum_getLastD (cfg : AccountConfig) (ass : Assumptions) :
    ∀ (rem y : Nat) (b cumC cumR : ℚ),
    ((simRowsAux cfg ass y rem b cumC cumR).map
        (fun r => r.cumulative_contributions)).getLastD cumC =
      cumC + ((simRowsAux cfg ass y rem b cumC cumR).map
        (fun r => r.annual_contribution)).sum := by
  intro rem
  induction rem with
  | zero =>
    intro y b cumC cumR
    simp [simRowsAux]
  | succ rem ih =>
    intro y b cumC cumR
    simp only [simRowsAux, List.map_cons, List.getLastD_cons, List.sum_cons]
    rw [ih]
    ring

theorem simRowsAux_cum_chain (cfg : AccountConfig) (ass : Assumptions)
    (hc : ∀ y, 0 ≤ contributionFor cfg ass y) :
    ∀ (rem y : Nat) (b cumC cumR : ℚ),
    List.Chain' (fun a b => a ≤ b)
      (cumC :: (simRowsAux cfg ass y rem b cumC cumR).map
        (fun r => r.cumulative_contributions)) := by
  intro rem
  induction rem with
  | zero =>
    intro y b cumC cumR
    simp [simRowsAux]
  | succ rem ih =>
    intro y b cumC cumR
    simp only [simRowsAux, List.map_cons]
    exact List.chain'_cons.mpr ⟨le_add_of_nonneg_right (hc y), ih (y + 1) _ _ _⟩

/-- C7: for every simulated account (with the config's amounts and rates
non-negative, as the form enforces, and at least one year to retirement)
`cumulative_contributions` is non-decreasing across the projection rows, the
projection is non-empty, and the final cumulative total — which is what the
simulation reports as `total_contributions` — equals the sum of
`annual_contribution` over all simulated years. -/
theorem cumulative_contributions_monotone_and_sum (cfg : AccountConfig)
    (ass : Assumptions) (hm : 0 ≤ cfg.monthlyContribution) (hs : 0 ≤ cfg.salary)
    (he : 0 ≤ cfg.employeeRate) (hr : 0 ≤ cfg.employerRate)
    (hg : 0 ≤ ass.salaryGrowthRate) (hage : ass.currentAge < ass.retirementAge) :
    (simulateAccount cfg ass).yearly_projections ≠ [] ∧
    List.Chain' (fun a b => a ≤ b)
      ((simulateAccount cfg ass).yearly_projections.map
        (fun r => r.cumulative_contributions)) ∧
    (simulateAccount cfg ass).total_contributions =
      ((simulateAccount cfg ass).yearly_projections.map
        (fun r => r.annual_contribution)).sum := by
  refine ⟨?_, ?_, ?_⟩
  · have hpos : 0 < ass.retirementAge - ass.currentAge := Nat.sub_pos_of_lt hage
    obtain ⟨rem, hrem⟩ := Nat.exists_eq_succ_of_ne_zero hpos.ne'
    simp [simulateAccount, hrem, simRowsAux]
  · have hch := simRowsAux_cum_chain cfg ass
      (contributionFor_nonneg cfg ass hm hs he hr hg)
      (ass.retirementAge - ass.currentAge) 0 cfg.startingBalance 0 0
    exact hch.tail
  · have hsum := simRowsAux_cum_getLastD cfg ass
      (ass.retirementAge - ass.currentAge) 0 cfg.startingBalance 0 0
    simpa [simulateAccount] using hsum

/-- Concrete input for the C7 witness: an IKZE account contributing a fixed
500 PLN monthly. -/
def simRunCfg : AccountConfig :=
  { kind := WrapperKind.IKZE, owner := "Marcin", startingBalance := 0,
    autoFillLimit := false, monthlyContribution := 500, taxRate := 17,
    baseLimit := 10000, salary := 0, employeeRate := 0, employerRate := 0,
    belowThreshold := false, includeWelcomeBonus := false,
    includeAnnualSubsidy := false, enabled := true }

/-- Concrete assumptions for the C7 witness: two years to retirement. -/
def simRunAss : Assumptions :=
  { currentAge := 30, retirementAge := 32, annualReturnRate := 7,
    limitGrowthRate := 5, salaryGrowthRate := 3, inflationRate := 3 }

/-- Witness for C7: the two-year IKZE run has non-decreasing cumulative
contributions whose final value is the sum of the annual contributions. -/
theorem cumulative_contributions_monotone_and_sum_witness :
    0 ≤ simRunCfg.monthlyContribution ∧ 0 ≤ simRunCfg.salary ∧
    0 ≤ simRunCfg.employeeRate ∧ 0 ≤ simRunCfg.employerRate ∧
    0 ≤ simRunAss.salaryGrowthRate ∧ simRunAss.currentAge < simRunAss.retirementAge ∧
    ((simulateAccount simRunCfg simRunAss).yearly_projections ≠ [] ∧
      List.Chain' (fun a b => a ≤ b)
        ((simulateAccount simRunCfg simRunAss).yearly_projections.map
          (fun r => r.cumulative_contributions)) ∧
      (simulateAccount simRunCfg simRunAss).total_contributions =
        ((simulateAccount simRunCfg simRunAss).yearly_projections.map
          (fun r => r.annual_contribution)).sum) :=
  ⟨by norm_num [simRunCfg], by norm_num [simRunCfg], by norm_num [simRunCfg],
    by norm_num [simRunCfg], by norm_num [simRunAss], by norm_num [simRunAss],
    cumulative_contributions_monotone_and_sum simRunCfg simRunAss
      (by norm_num [simRunCfg]) (by norm_num [simRunCfg]) (by norm_num [simRunCfg])
      (by norm_num [simRunCfg]) (by norm_num [simRunAss]) (by norm_num [simRunAss])⟩

end FinanceBuddy
